import Mathlib

/-!
Shallow embedding of the whoop-mcp aggregation and extraction logic
(src/tools/trends.ts, src/tools/monthly.ts, src/tools/home.ts, and the
recovery/strain deep-dive tools) together with theorems settling the
frozen claims about the natural-language specification.

JavaScript numbers are modelled as rationals (ℚ); `Math.round` is
half-up rounding (`⌊x + 1/2⌋`).  Rational division by zero yields 0 in
Lean rather than the IEEE infinities of JavaScript, so theorems about
ratio formulas carry an explicit nonzero hypothesis on the divisor.
-/

namespace Whoop

/-- JavaScript `Math.round`: rounds half away from minus infinity
(`Math.round(0.5) = 1`, `Math.round(-0.5) = 0`), i.e. `⌊x + 1/2⌋`. -/
def jsRound (x : ℚ) : ℚ := ((⌊x + 1/2⌋ : ℤ) : ℚ)

/-- `Math.round(x * 10) / 10`: round to one decimal place, the pattern
used for strain and sleep averages in the source. -/
def jsRound1 (x : ℚ) : ℚ := jsRound (x * 10) / 10

/-- A daily record as accumulated by the fetch loops
(`{date, recoveryScore, strain, sleepHours, calories, hrv, rhr}`); every
metric is independently nullable.  The date type is a parameter: the
loop-level theorems use `ℤ` day numbers, concrete examples use `String`
dates.  (The trends loop omits `calories`; it is modelled as `none`
there.) -/
structure DailyRecord (δ : Type) where
  date : δ
  recoveryScore : Option ℚ
  strain : Option ℚ
  sleepHours : Option ℚ
  calories : Option ℚ
  hrv : Option ℚ
  rhr : Option ℚ
deriving DecidableEq

/-- The all-null record pushed by the history and trends loops when a
day's fetch fails (`{date: dateStr, recoveryScore: null, strain: null,
sleepHours: null, calories: null, hrv: null, rhr: null}`). -/
def nullRecord {δ : Type} (d : δ) : DailyRecord δ :=
  ⟨d, none, none, none, none, none, none⟩

/-- `arr.reduce((a, b) => a + b.<metric>, 0)` over a list of records,
reading the metric with `f`; on the call sites the list has already been
filtered to non-null entries, so the `getD 0` default is never taken. -/
def sumBy {α : Type} (f : α → Option ℚ) (l : List α) : ℚ :=
  l.foldl (fun a b => a + (f b).getD 0) 0

/-- The repeated source pattern
`valid.length > 0 ? Math.round(sum / valid.length) : null` for the
integer-scale metrics (recovery, HRV, RHR), where
`valid = arr.filter(d => d.<metric> != null)`. -/
def avgIntOf {α : Type} (f : α → Option ℚ) (l : List α) : Option ℚ :=
  let valid := l.filter (fun d => (f d).isSome)
  if valid.length > 0 then some (jsRound (sumBy f valid / valid.length)) else none

/-- The repeated source pattern
`valid.length > 0 ? Math.round((sum / valid.length) * 10) / 10 : null`
for the one-decimal metrics (strain, sleep). -/
def avgDecOf {α : Type} (f : α → Option ℚ) (l : List α) : Option ℚ :=
  let valid := l.filter (fun d => (f d).isSome)
  if valid.length > 0 then some (jsRound1 (sumBy f valid / valid.length)) else none

/-- The `WindowStats` aggregate produced by `calcStats` in trends.ts. -/
structure WindowStats where
  avgRecovery : Option ℚ
  avgStrain : Option ℚ
  avgSleep : Option ℚ
  avgHrv : Option ℚ
  avgRhr : Option ℚ
  daysAbove70Recovery : ℕ
deriving DecidableEq

/-- `calcStats` from trends.ts lines 120-165: per-metric filter to
non-null records, then rounded mean (or null when empty), plus the count
of records with `recoveryScore >= 70`. -/
def calcStats {δ : Type} (arr : List (DailyRecord δ)) : WindowStats :=
  { avgRecovery := avgIntOf (fun d => d.recoveryScore) arr
    avgStrain := avgDecOf (fun d => d.strain) arr
    avgSleep := avgDecOf (fun d => d.sleepHours) arr
    avgHrv := avgIntOf (fun d => d.hrv) arr
    avgRhr := avgIntOf (fun d => d.rhr) arr
    daysAbove70Recovery :=
      ((arr.filter (fun d => d.recoveryScore.isSome)).filter
        (fun d => decide ((70 : ℚ) ≤ d.recoveryScore.getD 0))).length }

/-- `calcChange` from trends.ts lines 170-173:
`(current, previous) => current == null || previous == null ||
previous === 0 ? null : Math.round(((current - previous) / previous) * 100)`. -/
def calcChange (current previous : Option ℚ) : Option ℚ :=
  match current, previous with
  | none, _ => none
  | _, none => none
  | some c, some p => if p = 0 then none else some (jsRound ((c - p) / p * 100))

/-- The `changes` object of the trends tool. -/
structure ChangeSet where
  recoveryChange : Option ℚ
  strainChange : Option ℚ
  sleepChange : Option ℚ
  hrvChange : Option ℚ
  rhrChange : Option ℚ
deriving DecidableEq

/-- The `weekOverWeek` output of the trends tool. -/
structure WeekOverWeek where
  thisWeek : WindowStats
  lastWeek : WindowStats
  changes : ChangeSet
deriving DecidableEq

/-- trends.ts lines 117-118 and 167-181: `lastWeekData = data.slice(0, 7)`,
`thisWeekData = data.slice(7, 14)`, both aggregated by `calcStats`, and
one `calcChange` per metric. -/
def weekOverWeek {δ : Type} (data : List (DailyRecord δ)) : WeekOverWeek :=
  let lastWeek := calcStats (data.take 7)
  let thisWeek := calcStats ((data.drop 7).take 7)
  { thisWeek := thisWeek
    lastWeek := lastWeek
    changes :=
      { recoveryChange := calcChange thisWeek.avgRecovery lastWeek.avgRecovery
        strainChange := calcChange thisWeek.avgStrain lastWeek.avgStrain
        sleepChange := calcChange thisWeek.avgSleep lastWeek.avgSleep
        hrvChange := calcChange thisWeek.avgHrv lastWeek.avgHrv
        rhrChange := calcChange thisWeek.avgRhr lastWeek.avgRhr } }

/-- trends.ts lines 183-189: start from `"balanced"`, and when both
averages are non-null classify by `ratio = avgStrain / (avgRecovery / 10)`:
`"overreaching"` if `ratio > 2`, `"undertrained"` if `ratio < 1`. -/
def strainRecoveryBalance (thisWeek : WindowStats) : String :=
  match thisWeek.avgStrain, thisWeek.avgRecovery with
  | some st, some r =>
    if st / (r / 10) > 2 then "overreaching"
    else if st / (r / 10) < 1 then "undertrained"
    else "balanced"
  | _, _ => "balanced"

/-- `calcAvg` from home.ts lines 415-420: unrounded mean of the non-null
entries of one metric, null when there are none. -/
def calcAvg {δ : Type} (f : DailyRecord δ → Option ℚ) (arr : List (DailyRecord δ)) : Option ℚ :=
  let valid := arr.filter (fun d => (f d).isSome)
  if valid.length > 0 then some (sumBy f valid / valid.length) else none

/-- `getTrend` from home.ts lines 422-428: `"insufficient data"` when
either average is null, else classify `diff = ((second - first) / first) * 100`
as `"improving"` (`diff > 5`), `"declining"` (`diff < -5`) or `"stable"`. -/
def getTrend (first second : Option ℚ) : String :=
  match first, second with
  | some f, some s =>
    if (s - f) / f * 100 > 5 then "improving"
    else if (s - f) / f * 100 < -5 then "declining"
    else "stable"
  | _, _ => "insufficient data"

/-! ## The sequential day-range fetch loops -/

/-- The `whoop_live_metadata` fields the loops read. -/
structure LiveMetadata where
  recovery_score : Option ℚ
  day_strain : Option ℚ
  ms_of_sleep : Option ℚ
  calories : Option ℚ
deriving DecidableEq

/-- Outcome of one `await whoopClient.getHomeData(dateStr)` call inside a
per-day `try`: either the call succeeded (with the payload's
`metadata?.whoop_live_metadata`, absent when the chain is missing) or it
threw. -/
inductive HomeFetch where
  | ok (live : Option LiveMetadata)
  | err
deriving DecidableEq

/-- `live.ms_of_sleep ? live.ms_of_sleep / (1000 * 60 * 60) : null`:
JavaScript truthiness makes `0` milliseconds yield null. -/
def sleepHoursOf (live : LiveMetadata) : Option ℚ :=
  match live.ms_of_sleep with
  | none => none
  | some m => if m = 0 then none else some (m / (1000 * 60 * 60))

/-- One day of loop input: the date, the outcome of the outer
`getHomeData` call, and the HRV/RHR values produced by the inner (fully
guarded) recovery-deep-dive fetch, which are null when that fetch fails
or the metrics are absent. -/
structure DayInput (δ : Type) where
  date : δ
  home : HomeFetch
  hrv : Option ℚ
  rhr : Option ℚ
deriving DecidableEq

/-- One iteration of the trends.ts lines 67-112 loop body: a successful
fetch with live metadata pushes a populated record, a successful fetch
without live metadata pushes an all-null record, and a thrown fetch is
caught and pushes an all-null record. -/
def trendsDayRecord {δ : Type} (day : DayInput δ) : DailyRecord δ :=
  match day.home with
  | .ok (some live) =>
      { date := day.date
        recoveryScore := live.recovery_score
        strain := live.day_strain
        sleepHours := sleepHoursOf live
        calories := none
        hrv := day.hrv
        rhr := day.rhr }
  | .ok none => nullRecord day.date
  | .err => nullRecord day.date

/-- The accumulated `data` array of the trends loop. -/
def trendsData {δ : Type} (days : List (DayInput δ)) : List (DailyRecord δ) :=
  days.map trendsDayRecord

/-- One iteration of the home.ts (whoop_get_history) lines 315-353 loop
body: a successful fetch with live metadata pushes a populated record, a
successful fetch without live metadata pushes nothing, and a thrown
fetch is caught and pushes an all-null record ("Skip days with errors,
continue fetching"). -/
def historyDayRecords {δ : Type} (day : DayInput δ) : List (DailyRecord δ) :=
  match day.home with
  | .ok (some live) =>
      [{ date := day.date
         recoveryScore := live.recovery_score
         strain := live.day_strain
         sleepHours := sleepHoursOf live
         calories := live.calories
         hrv := none
         rhr := none }]
  | .ok none => []
  | .err => [nullRecord day.date]

/-- The accumulated `dailyData` array of the history loop. -/
def historyData {δ : Type} (days : List (DayInput δ)) : List (DailyRecord δ) :=
  days.flatMap historyDayRecords

/-- One iteration of the monthly.ts lines 76-125 loop body: only a
successful fetch with live metadata pushes a record; a fetch without
live metadata pushes nothing, and a thrown fetch is caught and pushes
nothing ("Skip days with errors"). -/
def monthlyDayRecords {δ : Type} (day : DayInput δ) : List (DailyRecord δ) :=
  match day.home with
  | .ok (some live) =>
      [{ date := day.date
         recoveryScore := live.recovery_score
         strain := live.day_strain
         sleepHours := sleepHoursOf live
         calories := live.calories
         hrv := day.hrv
         rhr := day.rhr }]
  | .ok none => []
  | .err => []

/-- The accumulated `dailyData` array of the monthly loop. -/
def monthlyData {δ : Type} (days : List (DayInput δ)) : List (DailyRecord δ) :=
  days.flatMap monthlyDayRecords

/-- The dates visited by the trends loop (`for (let i = 13; i >= 0; i--)`
with `d = end - i` days): `end - 13, end - 12, ..., end`, in ascending
chronological order, with dates modelled as integer day numbers. -/
def trendsDates (endDay : ℤ) : List ℤ :=
  (List.range 14).map (fun k => endDay - 13 + (k : ℤ))

/-! ## Monthly aggregates -/

/-- The `averages` object of monthly.ts lines 147-163. -/
structure MonthlyAverages where
  recovery : Option ℚ
  strain : Option ℚ
  sleepHours : Option ℚ
  hrv : Option ℚ
  rhr : Option ℚ
deriving DecidableEq

/-- monthly.ts lines 147-163: per-metric filtered means, integer-rounded
for recovery/HRV/RHR and one-decimal for strain/sleep. -/
def monthlyAverages {δ : Type} (dailyData : List (DailyRecord δ)) : MonthlyAverages :=
  { recovery := avgIntOf (fun d => d.recoveryScore) dailyData
    strain := avgDecOf (fun d => d.strain) dailyData
    sleepHours := avgDecOf (fun d => d.sleepHours) dailyData
    hrv := avgIntOf (fun d => d.hrv) dailyData
    rhr := avgIntOf (fun d => d.rhr) dailyData }

/-- The source pattern
`arr.reduce((best, d) => !best || f(d) > f(best) ? d : best, null)`
used for best-day selection (monthly.ts lines 166-173). -/
def jsReduceMax {α : Type} (f : α → ℚ) (arr : List α) : Option α :=
  arr.foldl
    (fun best d =>
      match best with
      | none => some d
      | some b => if f d > f b then some d else some b)
    none

/-- The source pattern
`arr.reduce((worst, d) => !worst || f(d) < f(worst) ? d : worst, null)`
used for worst-day selection (monthly.ts lines 168-169). -/
def jsReduceMin {α : Type} (f : α → ℚ) (arr : List α) : Option α :=
  arr.foldl
    (fun worst d =>
      match worst with
      | none => some d
      | some b => if f d < f b then some d else some b)
    none

/-- The `highlights` object of monthly.ts lines 165-180; each entry maps
the selected record (when one exists) to its date and value, with
`bestSleepDay` rounding hours to one decimal. -/
structure Highlights (δ : Type) where
  bestRecoveryDay : Option (δ × ℚ)
  worstRecoveryDay : Option (δ × ℚ)
  highestStrainDay : Option (δ × ℚ)
  bestSleepDay : Option (δ × ℚ)
deriving DecidableEq

/-- monthly.ts lines 165-180. -/
def highlights {δ : Type} (dailyData : List (DailyRecord δ)) : Highlights δ :=
  let validRecovery := dailyData.filter (fun d => d.recoveryScore.isSome)
  let validStrain := dailyData.filter (fun d => d.strain.isSome)
  let validSleep := dailyData.filter (fun d => d.sleepHours.isSome)
  { bestRecoveryDay :=
      (jsReduceMax (fun d => d.recoveryScore.getD 0) validRecovery).map
        (fun d => (d.date, d.recoveryScore.getD 0))
    worstRecoveryDay :=
      (jsReduceMin (fun d => d.recoveryScore.getD 0) validRecovery).map
        (fun d => (d.date, d.recoveryScore.getD 0))
    highestStrainDay :=
      (jsReduceMax (fun d => d.strain.getD 0) validStrain).map
        (fun d => (d.date, d.strain.getD 0))
    bestSleepDay :=
      (jsReduceMax (fun d => d.sleepHours.getD 0) validSleep).map
        (fun d => (d.date, jsRound1 (d.sleepHours.getD 0))) }

/-- The `distribution` object of monthly.ts lines 183-187. -/
structure Distribution where
  greenRecoveryDays : ℕ
  yellowRecoveryDays : ℕ
  redRecoveryDays : ℕ
deriving DecidableEq

/-- monthly.ts lines 183-187: tier counts over the records with a
non-null recovery score (`>= 67`, `34 <= _ < 67`, `< 34`). -/
def distribution {δ : Type} (dailyData : List (DailyRecord δ)) : Distribution :=
  let validRecovery := dailyData.filter (fun d => d.recoveryScore.isSome)
  { greenRecoveryDays :=
      (validRecovery.filter (fun d => decide ((67 : ℚ) ≤ d.recoveryScore.getD 0))).length
    yellowRecoveryDays :=
      (validRecovery.filter (fun d =>
        decide ((34 : ℚ) ≤ d.recoveryScore.getD 0) &&
        decide (d.recoveryScore.getD 0 < 67))).length
    redRecoveryDays :=
      (validRecovery.filter (fun d => decide (d.recoveryScore.getD 0 < 34))).length }

/-! ## Widget-tree field extraction (recovery/strain deep dives, trends)

The deep-dive payload is a loosely-typed tree; every node that
JavaScript could find `undefined` is an `Option`.  A plain (unguarded)
member access on an absent node throws a `TypeError`; extractions that
contain such accesses are modelled in `Except Unit`, where `.error ()`
is a thrown `TypeError`. -/

/-- A metric inside a contributors tile. -/
structure WidgetMetric where
  id : Option String
  title : Option String
  status : Option String
  status_subtitle : Option String
  status_type : Option String
  icon : Option String
deriving DecidableEq

/-- Content of a footer item (`content.vow`). -/
structure FooterItemContent where
  vow : Option String
deriving DecidableEq

/-- An item of a tile footer. -/
structure FooterItem where
  type : Option String
  content : Option FooterItemContent
deriving DecidableEq

/-- A tile footer (`footer.items`). -/
structure Footer where
  items : Option (List FooterItem)
deriving DecidableEq

/-- The `content` object of a widget item, holding the union of the
fields the extractors read (score gauges, contributors tiles and
activity entries). -/
structure WidgetContent where
  metrics : Option (List WidgetMetric)
  footer : Option Footer
  score_display : Option String
  gauge_fill_percentage : Option ℚ
  progress_fill_style : Option String
  score_target : Option ℚ
  lower_optimal_percentage : Option ℚ
  higher_optimal_percentage : Option ℚ
  title : Option String
  start_time_text : Option String
  end_time_text : Option String
  type : Option String
  status : Option String
deriving DecidableEq

/-- A widget item (`{type, content}`). -/
structure WidgetItem where
  type : Option String
  content : Option WidgetContent
deriving DecidableEq

/-- A section (`{items}`). -/
structure WidgetSection where
  items : Option (List WidgetItem)
deriving DecidableEq

/-- A deep-dive payload as navigated by the extractors (`data.sections`). -/
structure DeepDivePayload where
  sections : Option (List WidgetSection)
deriving DecidableEq

/-- `i.type === t` on a widget item (`undefined === t` is false). -/
def isType (t : String) (i : WidgetItem) : Bool := i.type == some t

/-- `secs.find(s => s.items.some(p))` where the predicate performs the
unguarded access `s.items.some`: evaluating it on a section without
`items` throws.  `find` stops at the first match, so sections after the
match are not evaluated. -/
def findSectionAux (p : WidgetItem → Bool) : List WidgetSection → Except Unit (Option WidgetSection)
  | [] => .ok none
  | s :: rest =>
    match s.items with
    | none => .error ()
    | some its => if its.any p then .ok (some s) else findSectionAux p rest

/-- `data.sections.find(s => s.items.some(p))`: the unguarded access
`data.sections.find` throws when `sections` is absent. -/
def tsFindSection (sections : Option (List WidgetSection)) (p : WidgetItem → Bool) : Except Unit (Option WidgetSection) :=
  match sections with
  | none => .error ()
  | some secs => findSectionAux p secs

/-- `section?.items.find(p)?.content`: short-circuits to `undefined` when
the section is absent, but performs the unguarded access `.items.find`
when the section is present, throwing if its `items` is absent. -/
def tsItemContent (sec : Option WidgetSection) (p : WidgetItem → Bool) : Except Unit (Option WidgetContent) :=
  match sec with
  | none => .ok none
  | some s =>
    match s.items with
    | none => .error ()
    | some its =>
      match its.find? p with
      | none => .ok none
      | some item => .ok item.content

/-- One mapped contributor
(`{id, title, value: status, baseline: status_subtitle, status: status_type, icon}`). -/
structure Contributor where
  id : Option String
  title : Option String
  value : Option String
  baseline : Option String
  status : Option String
  icon : Option String
deriving DecidableEq

/-- The per-metric mapping of the contributors array. -/
def contributorOf (m : WidgetMetric) : Contributor :=
  { id := m.id
    title := m.title
    value := m.status
    baseline := m.status_subtitle
    status := m.status_type
    icon := m.icon }

/-- `contributorsTile?.metrics.map(...) || []`: an absent tile
short-circuits to `undefined` and the `||` yields `[]`, but a present
tile performs the unguarded access `.metrics.map`, throwing when
`metrics` is absent. -/
def tsMetricsMap (tile : Option WidgetContent) : Except Unit (List Contributor) :=
  match tile with
  | none => .ok []
  | some c =>
    match c.metrics with
    | none => .error ()
    | some ms => .ok (ms.map contributorOf)

/-- `contributorsTile?.footer?.items?.find(i => i.type === "WHOOP_COACH_VOW")?.content?.vow || null`:
fully guarded, so never throws; an empty string is falsy and also
becomes null. -/
def coachVowOf (tile : Option WidgetContent) : Option String :=
  match tile with
  | none => none
  | some c =>
    match c.footer with
    | none => none
    | some f =>
      match f.items with
      | none => none
      | some its =>
        match its.find? (fun i => i.type == some "WHOOP_COACH_VOW") with
        | none => none
        | some it =>
          match it.content with
          | none => none
          | some cc =>
            match cc.vow with
            | none => none
            | some v => if v = "" then none else some v

/-- `v || dflt` on an optional string: absent and empty strings are
falsy. -/
def jsOrString (v : Option String) (dflt : String) : String :=
  match v with
  | none => dflt
  | some s => if s = "" then dflt else s

/-- `v || null` on an optional number: absent and `0` are falsy. -/
def jsOrNullQ (v : Option ℚ) : Option ℚ :=
  match v with
  | none => none
  | some q => if q = 0 then none else some q

/-- The structured extraction result of the recovery deep-dive tool. -/
structure RecoveryOutput where
  score : String
  percentage : ℚ
  style : String
  contributors : List Contributor
  coachInsight : Option String
deriving DecidableEq

/-- The extraction step of `whoop_get_recovery` (part_000 lines 45-85):
locate the score gauge and the contributors tile, map the tile metrics,
and read the coach insight; `scoreGauge?.score_display || "N/A"`,
`?.gauge_fill_percentage || 0` and `?.progress_fill_style || "UNKNOWN"`
supply the defaults. -/
def recoveryExtract (data : DeepDivePayload) : Except Unit RecoveryOutput :=
  match tsFindSection data.sections (isType "SCORE_GAUGE") with
  | .error e => .error e
  | .ok scoreSection =>
    match tsItemContent scoreSection (isType "SCORE_GAUGE") with
    | .error e => .error e
    | .ok scoreGauge =>
      match tsFindSection data.sections (isType "CONTRIBUTORS_TILE") with
      | .error e => .error e
      | .ok contributorsSection =>
        match tsItemContent contributorsSection (isType "CONTRIBUTORS_TILE") with
        | .error e => .error e
        | .ok contributorsTile =>
          match tsMetricsMap contributorsTile with
          | .error e => .error e
          | .ok contributors =>
            .ok { score := jsOrString (scoreGauge.bind (fun g => g.score_display)) "N/A"
                  percentage := (scoreGauge.bind (fun g => g.gauge_fill_percentage)).getD 0
                  style := jsOrString (scoreGauge.bind (fun g => g.progress_fill_style)) "UNKNOWN"
                  contributors := contributors
                  coachInsight := coachVowOf contributorsTile }

/-- One mapped activity entry of the strain tool. -/
structure Activity where
  title : Option String
  strainScore : Option String
  startTime : Option String
  endTime : Option String
  type : Option String
  status : Option String
deriving DecidableEq

/-- The inner `forEach` over a section's items (part_001 lines 88-99):
for each item of type `ACTIVITY`, the unguarded access `item.content.title`
(etc.) throws when `content` is absent. -/
def itemsActivities : List WidgetItem → Except Unit (List Activity)
  | [] => .ok []
  | i :: rest =>
    if isType "ACTIVITY" i then
      match i.content with
      | none => .error ()
      | some c =>
        match itemsActivities rest with
        | .error e => .error e
        | .ok rs =>
          .ok ({ title := c.title
                 strainScore := c.score_display
                 startTime := c.start_time_text
                 endTime := c.end_time_text
                 type := c.type
                 status := c.status } :: rs)
    else itemsActivities rest

/-- The outer `forEach` over the filtered activity sections, with the
unguarded access `section.items.forEach`. -/
def activitiesFromSections : List WidgetSection → Except Unit (List Activity)
  | [] => .ok []
  | s :: rest =>
    match s.items with
    | none => .error ()
    | some its =>
      match itemsActivities its with
      | .error e => .error e
      | .ok here =>
        match activitiesFromSections rest with
        | .error e => .error e
        | .ok there => .ok (here ++ there)

/-- `secs.filter(s => s.items.some(p))`: unlike `find`, `filter`
evaluates the (throwing) predicate on every section. -/
def filterSectionsAux (p : WidgetItem → Bool) : List WidgetSection → Except Unit (List WidgetSection)
  | [] => .ok []
  | s :: rest =>
    match s.items with
    | none => .error ()
    | some its =>
      match filterSectionsAux p rest with
      | .error e => .error e
      | .ok r => .ok (if its.any p then s :: r else r)

/-- part_001 lines 83-100: `data.sections.filter(...)` (unguarded access
on `sections`) followed by the nested `forEach` collecting activities. -/
def tsActivities (sections : Option (List WidgetSection)) : Except Unit (List Activity) :=
  match sections with
  | none => .error ()
  | some secs =>
    match filterSectionsAux (isType "ACTIVITY") secs with
    | .error e => .error e
    | .ok filtered => activitiesFromSections filtered

/-- The structured extraction result of the strain deep-dive tool. -/
structure StrainOutput where
  score : String
  percentage : ℚ
  target : Option ℚ
  lowerOptimal : Option ℚ
  higherOptimal : Option ℚ
  contributors : List Contributor
  activities : List Activity
  coachInsight : Option String
deriving DecidableEq

/-- The extraction step of `whoop_get_strain` (part_001 lines 57-119):
score gauge, contributors tile, activity entries and coach insight;
`?.score_target || null` and the optimal percentages use `|| null`. -/
def strainExtract (data : DeepDivePayload) : Except Unit StrainOutput :=
  match tsFindSection data.sections (isType "SCORE_GAUGE") with
  | .error e => .error e
  | .ok scoreSection =>
    match tsItemContent scoreSection (isType "SCORE_GAUGE") with
    | .error e => .error e
    | .ok scoreGauge =>
      match tsFindSection data.sections (isType "CONTRIBUTORS_TILE") with
      | .error e => .error e
      | .ok contributorsSection =>
        match tsItemContent contributorsSection (isType "CONTRIBUTORS_TILE") with
        | .error e => .error e
        | .ok contributorsTile =>
          match tsMetricsMap contributorsTile with
          | .error e => .error e
          | .ok contributors =>
            match tsActivities data.sections with
            | .error e => .error e
            | .ok activities =>
              .ok { score := jsOrString (scoreGauge.bind (fun g => g.score_display)) "N/A"
                    percentage := (scoreGauge.bind (fun g => g.gauge_fill_percentage)).getD 0
                    target := jsOrNullQ (scoreGauge.bind (fun g => g.score_target))
                    lowerOptimal := jsOrNullQ (scoreGauge.bind (fun g => g.lower_optimal_percentage))
                    higherOptimal := jsOrNullQ (scoreGauge.bind (fun g => g.higher_optimal_percentage))
                    contributors := contributors
                    activities := activities
                    coachInsight := coachVowOf contributorsTile }

/-- The fully guarded contributors-tile navigation of trends.ts lines
76-81 (also monthly.ts lines 87-92):
`data.sections?.find(s => s.items?.some(i => i.type === "CONTRIBUTORS_TILE"))
?.items?.find(i => i.type === "CONTRIBUTORS_TILE")?.content` — every
access is optional-chained, so absence at any level yields `undefined`
(here `none`) and never throws. -/
def trendsContributorsTile (data : DeepDivePayload) : Option WidgetContent :=
  match data.sections with
  | none => none
  | some secs =>
    match secs.find? (fun s => (s.items.getD []).any (isType "CONTRIBUTORS_TILE")) with
    | none => none
    | some s =>
      match s.items with
      | none => none
      | some its =>
        match its.find? (isType "CONTRIBUTORS_TILE") with
        | none => none
        | some item => item.content

/-- The guard-free (total) first-match section lookup that the throwing
navigation agrees with when every traversed node is present. -/
def plainSectionAux (p : WidgetItem → Bool) : List WidgetSection → Option WidgetSection
  | [] => none
  | s :: rest => if (s.items.getD []).any p then some s else plainSectionAux p rest

/-- The guard-free (total) section lookup by item-type tag. -/
def plainSection (data : DeepDivePayload) (t : String) : Option WidgetSection :=
  match data.sections with
  | none => none
  | some secs => plainSectionAux (isType t) secs

/-- The guard-free (total) tile-content lookup. -/
def plainTile (data : DeepDivePayload) (t : String) : Option WidgetContent :=
  match plainSection data t with
  | none => none
  | some s =>
    match (s.items.getD []).find? (isType t) with
    | none => none
    | some item => item.content

/-- Every section of the payload is present together with its `items`
array. -/
def allItemsPresent (data : DeepDivePayload) : Bool :=
  match data.sections with
  | none => false
  | some secs => secs.all (fun s => s.items.isSome)

/-- When a contributors tile is found, its `metrics` array is present. -/
def tileMetricsOk (data : DeepDivePayload) : Bool :=
  match plainTile data "CONTRIBUTORS_TILE" with
  | none => true
  | some c => c.metrics.isSome

/-- Every `ACTIVITY` item has a `content` object. -/
def activityContentsOk (data : DeepDivePayload) : Bool :=
  match data.sections with
  | none => false
  | some secs =>
    secs.all (fun s =>
      (s.items.getD []).all (fun i => !(isType "ACTIVITY" i) || i.content.isSome))

/-! ## Spec-side definitions (refinement targets)

These follow the specification's words, not the source, and exist to be
compared with the source-derived definitions above. -/

/-- Spec-side: the arithmetic mean of a list of (the non-null) values,
rounded to the nearest integer; null when there are no values. -/
def meanRounded (vs : List ℚ) : Option ℚ :=
  if vs = [] then none else some ((⌊vs.sum / vs.length + 1/2⌋ : ℤ) : ℚ)

/-- Spec-side: the arithmetic mean rounded to one decimal place; null
when there are no values. -/
def meanRounded1 (vs : List ℚ) : Option ℚ :=
  if vs = [] then none else some (((⌊vs.sum / vs.length * 10 + 1/2⌋ : ℤ) : ℚ) / 10)

/-- Spec-side: the number of records whose metric (read by `f`) is
non-null and satisfies `p`; a record with a null metric is never
counted. -/
def countValid {α : Type} (f : α → Option ℚ) (p : ℚ → Bool) (l : List α) : ℕ :=
  (l.filter (fun d =>
    match f d with
    | none => false
    | some v => p v)).length

/-- Spec-side: `x` is the first occurrence of the maximum of `f` in `l`:
`l` splits around `x`, everything before it is strictly smaller and
everything after it is no larger. -/
def IsFirstMax {α : Type} (f : α → ℚ) (l : List α) (x : α) : Prop :=
  ∃ pre suf, l = pre ++ x :: suf ∧ (∀ y ∈ pre, f y < f x) ∧ (∀ y ∈ suf, f y ≤ f x)

/-- Spec-side: `x` is the first occurrence of the minimum of `f` in `l`. -/
def IsFirstMin {α : Type} (f : α → ℚ) (l : List α) (x : α) : Prop :=
  ∃ pre suf, l = pre ++ x :: suf ∧ (∀ y ∈ pre, f x < f y) ∧ (∀ y ∈ suf, f x ≤ f y)

/-! ## Further source-derived definitions used by the theorems -/

/-- The `trends` object of `whoop_get_history` (home.ts lines 410-443):
split `dailyData` at `midpoint = floor(length / 2)` and compare the
unrounded half averages with `getTrend`. -/
structure HistoryTrends where
  recoveryTrend : String
  strainTrend : String
  sleepTrend : String
deriving DecidableEq

/-- home.ts lines 410-443. -/
def historyTrends {δ : Type} (dailyData : List (DailyRecord δ)) : HistoryTrends :=
  let midpoint := dailyData.length / 2
  let firstHalf := dailyData.take midpoint
  let secondHalf := dailyData.drop midpoint
  { recoveryTrend :=
      getTrend (calcAvg (fun d => d.recoveryScore) firstHalf)
        (calcAvg (fun d => d.recoveryScore) secondHalf)
    strainTrend :=
      getTrend (calcAvg (fun d => d.strain) firstHalf)
        (calcAvg (fun d => d.strain) secondHalf)
    sleepTrend :=
      getTrend (calcAvg (fun d => d.sleepHours) firstHalf)
        (calcAvg (fun d => d.sleepHours) secondHalf) }

/-- The state of the best-so-far accumulator of `jsReduceMax` once it is
non-null: the running best of `b` and the elements of the list, keeping
the earlier element on ties. -/
def bestFrom {α : Type} (f : α → ℚ) (b : α) : List α → α
  | [] => b
  | x :: xs => if f x > f b then bestFrom f x xs else bestFrom f b xs

/-- A record whose only non-null metric is its recovery score. -/
def recOnly {δ : Type} (d : δ) (r : ℚ) : DailyRecord δ :=
  ⟨d, some r, none, none, none, none, none⟩

/-- The concrete 14-day series of the spec's week-over-week example:
last-week recoveries `[60, 62, 58, 65, 61, 59, 63]` on days 0-6,
this-week recoveries `[70, 72, 68, 75, 71, 69, 73]` on days 7-13. -/
def trendsExampleData : List (DailyRecord ℤ) :=
  [recOnly 0 60, recOnly 1 62, recOnly 2 58, recOnly 3 65, recOnly 4 61,
   recOnly 5 59, recOnly 6 63, recOnly 7 70, recOnly 8 72, recOnly 9 68,
   recOnly 10 75, recOnly 11 71, recOnly 12 69, recOnly 13 73]

/-- The concrete two-day series of the spec's best/worst-day example:
recoveries `{"2024-01-01": 80, "2024-01-02": 45}`. -/
def monthlyExampleData : List (DailyRecord String) :=
  [recOnly "2024-01-01" 80, recOnly "2024-01-02" 45]

/-! ## Helper lemmas -/

theorem sumBy_foldl_shift {α : Type} (f : α → Option ℚ) :
    ∀ (l : List α) (a : ℚ), l.foldl (fun a b => a + (f b).getD 0) a = a + sumBy f l := by
  intro l
  induction l with
  | nil => intro a; simp [sumBy]
  | cons hd tl ih =>
    intro a
    show tl.foldl _ (a + (f hd).getD 0) = a + sumBy f (hd :: tl)
    rw [ih]
    show a + (f hd).getD 0 + sumBy f tl = a + List.foldl _ ((0 : ℚ) + (f hd).getD 0) tl
    rw [ih ((0 : ℚ) + (f hd).getD 0)]
    ring

theorem sumBy_cons {α : Type} (f : α → Option ℚ) (x : α) (l : List α) :
    sumBy f (x :: l) = (f x).getD 0 + sumBy f l := by
  show List.foldl _ ((0 : ℚ) + (f x).getD 0) l = _
  rw [sumBy_foldl_shift]
  ring

theorem sumBy_filter_eq {α : Type} (f : α → Option ℚ) (l : List α) :
    sumBy f (l.filter (fun d => (f d).isSome)) = (l.filterMap f).sum := by
  induction l with
  | nil => rfl
  | cons hd tl ih =>
    cases h : f hd with
    | none => simpa [List.filter_cons, List.filterMap_cons, h] using ih
    | some v => simp [List.filter_cons, List.filterMap_cons, h, sumBy_cons, ih]

theorem length_filter_eq {α : Type} (f : α → Option ℚ) (l : List α) :
    (l.filter (fun d => (f d).isSome)).length = (l.filterMap f).length := by
  induction l with
  | nil => rfl
  | cons hd tl ih =>
    cases h : f hd with
    | none => simpa [List.filter_cons, List.filterMap_cons, h] using ih
    | some v => simp [List.filter_cons, List.filterMap_cons, h, ih]

theorem avgIntOf_eq {α : Type} (f : α → Option ℚ) (l : List α) :
    avgIntOf f l = meanRounded (l.filterMap f) := by
  by_cases h : l.filterMap f = []
  · have h2 : (l.filter (fun d => (f d).isSome)).length = 0 := by
      rw [length_filter_eq, h]; rfl
    simp [avgIntOf, meanRounded, h, h2]
  · have hl : 0 < (l.filterMap f).length := List.length_pos.mpr h
    have h2 : 0 < (l.filter (fun d => (f d).isSome)).length := by
      rw [length_filter_eq]; exact hl
    simp only [avgIntOf, meanRounded, if_pos h2, if_neg h, jsRound,
      sumBy_filter_eq, length_filter_eq]
    exact if_pos hl

theorem avgDecOf_eq {α : Type} (f : α → Option ℚ) (l : List α) :
    avgDecOf f l = meanRounded1 (l.filterMap f) := by
  by_cases h : l.filterMap f = []
  · have h2 : (l.filter (fun d => (f d).isSome)).length = 0 := by
      rw [length_filter_eq, h]; rfl
    simp [avgDecOf, meanRounded1, h, h2]
  · have hl : 0 < (l.filterMap f).length := List.length_pos.mpr h
    have h2 : 0 < (l.filter (fun d => (f d).isSome)).length := by
      rw [length_filter_eq]; exact hl
    simp only [avgDecOf, meanRounded1, if_pos h2, if_neg h, jsRound1, jsRound,
      sumBy_filter_eq, length_filter_eq]
    exact if_pos hl

/-! ## Claim theorems -/

/-- C2: `calcChange` returns null iff the current operand is null, the
previous operand is null, or the previous operand is 0; otherwise it
returns `round(((current - previous) / previous) * 100)`; in particular
`calcChange (some 110) (some 100) = some 10`, and zero or null previous
operands always yield null. -/
theorem calcChange_spec :
    (∀ current previous : Option ℚ,
      calcChange current previous = none ↔
        current = none ∨ previous = none ∨ previous = some 0) ∧
    (∀ c p : ℚ, p ≠ 0 →
      calcChange (some c) (some p) = some ((⌊(c - p) / p * 100 + 1/2⌋ : ℤ) : ℚ)) ∧
    calcChange (some 110) (some 100) = some 10 ∧
    (∀ x : Option ℚ, calcChange x (some 0) = none) ∧
    (∀ x : Option ℚ, calcChange x none = none) := by
  refine ⟨?_, ?_, ?_, ?_, ?_⟩
  · intro c p
    match c, p with
    | none, _ => simp [calcChange]
    | some c, none => simp [calcChange]
    | some c, some p =>
      by_cases h : p = 0 <;> simp [calcChange, h]
  · intro c p hp
    simp [calcChange, hp, jsRound]
  · norm_num [calcChange, jsRound]
  · intro x
    cases x <;> simp [calcChange]
  · intro x
    cases x <;> simp [calcChange]

/-- Witness for C2 at `current = 110`, `previous = 100`. -/
theorem calcChange_spec_witness :
    calcChange (some 110) (some 100) =
      some ((⌊((110 : ℚ) - 100) / 100 * 100 + 1/2⌋ : ℤ) : ℚ) :=
  calcChange_spec.2.1 110 100 (by norm_num)

/-- C4: `getTrend` returns `"improving"` when the relative change is
strictly greater than 5, `"declining"` when strictly less than -5,
`"stable"` otherwise (exactly 5 yields `"stable"`), and
`"insufficient data"` when either half-window average is null; the
history tool computes each trend from the two unrounded half-window
averages.  (The numeric cases require a nonzero first average: rational
division by zero cannot model the JavaScript infinities.) -/
theorem getTrend_spec :
    (∀ f s : ℚ, f ≠ 0 →
      (((s - f) / f * 100 > 5 → getTrend (some f) (some s) = "improving") ∧
       ((s - f) / f * 100 < -5 → getTrend (some f) (some s) = "declining") ∧
       (-5 ≤ (s - f) / f * 100 → (s - f) / f * 100 ≤ 5 →
         getTrend (some f) (some s) = "stable"))) ∧
    (∀ f s : ℚ, f ≠ 0 → (s - f) / f * 100 = 5 → getTrend (some f) (some s) = "stable") ∧
    (∀ x : Option ℚ, getTrend none x = "insufficient data") ∧
    (∀ x : Option ℚ, getTrend x none = "insufficient data") ∧
    (∀ (δ : Type) (dailyData : List (DailyRecord δ)),
      (historyTrends dailyData).recoveryTrend =
        getTrend (calcAvg (fun d => d.recoveryScore) (dailyData.take (dailyData.length / 2)))
          (calcAvg (fun d => d.recoveryScore) (dailyData.drop (dailyData.length / 2)))) := by
  refine ⟨?_, ?_, ?_, ?_, ?_⟩
  · intro f s _
    refine ⟨?_, ?_, ?_⟩
    · intro h
      simp [getTrend, h]
    · intro h
      have h2 : ¬((s - f) / f * 100 > 5) := by linarith
      simp [getTrend, h, h2]
    · intro h1 h2
      have h3 : ¬((s - f) / f * 100 > 5) := by linarith
      have h4 : ¬((s - f) / f * 100 < -5) := by linarith
      simp [getTrend, h3, h4]
  · intro f s _ h
    have h3 : ¬((s - f) / f * 100 > 5) := by rw [h]; norm_num
    have h4 : ¬((s - f) / f * 100 < -5) := by rw [h]; norm_num
    simp [getTrend, h3, h4]
  · intro x
    cases x <;> rfl
  · intro x
    cases x <;> rfl
  · intro δ dailyData
    rfl

/-- Witness for C4 at `first = 100`, `second = 110` (a 10% change). -/
theorem getTrend_spec_witness : getTrend (some 100) (some 110) = "improving" :=
  (getTrend_spec.1 100 110 (by norm_num)).1 (by norm_num)

/-- C9: the strain/recovery balance is a single three-way choice over
this week's averages: `"overreaching"` when `avgStrain / (avgRecovery / 10) > 2`,
`"undertrained"` when that ratio is `< 1`, `"balanced"` otherwise; a
null average falls through to `"balanced"`.  (The ratio cases require a
nonzero recovery average: rational division by zero cannot model the
JavaScript infinities.) -/
theorem strainRecoveryBalance_spec :
    (∀ (w : WindowStats) (st r : ℚ), w.avgStrain = some st → w.avgRecovery = some r →
      r ≠ 0 →
      strainRecoveryBalance w =
        if st / (r / 10) > 2 then "overreaching"
        else if st / (r / 10) < 1 then "undertrained"
        else "balanced") ∧
    (∀ w : WindowStats, w.avgStrain = none → strainRecoveryBalance w = "balanced") ∧
    (∀ w : WindowStats, w.avgRecovery = none → strainRecoveryBalance w = "balanced") ∧
    (∀ w : WindowStats,
      strainRecoveryBalance w = "overreaching" ∨
      strainRecoveryBalance w = "undertrained" ∨
      strainRecoveryBalance w = "balanced") := by
  refine ⟨?_, ?_, ?_, ?_⟩
  · intro w st r h1 h2 _
    simp [strainRecoveryBalance, h1, h2]
  · intro w h
    cases hr : w.avgRecovery <;> simp [strainRecoveryBalance, h, hr]
  · intro w h
    cases hs : w.avgStrain <;> simp [strainRecoveryBalance, h, hs]
  · intro w
    cases hs : w.avgStrain with
    | none => right; right; simp [strainRecoveryBalance, hs]
    | some st =>
      cases hr : w.avgRecovery with
      | none => right; right; simp [strainRecoveryBalance, hs, hr]
      | some r =>
        simp only [strainRecoveryBalance, hs, hr]
        split_ifs <;> simp

/-- Witness for C9 at `avgStrain = 15`, `avgRecovery = 50` (ratio 3). -/
theorem strainRecoveryBalance_spec_witness :
    strainRecoveryBalance ⟨some 50, some 15, none, none, none, 0⟩ =
      if (15 : ℚ) / (50 / 10) > 2 then "overreaching"
      else if (15 : ℚ) / (50 / 10) < 1 then "undertrained"
      else "balanced" :=
  strainRecoveryBalance_spec.1 ⟨some 50, some 15, none, none, none, 0⟩ 15 50 rfl rfl
    (by norm_num)

/-- C1 (amended): a single-day fetch failure never truncates the loop —
the records for the days before and after the failure are exactly those
the loop produces without it; the trends and history loops additionally
append an all-null record for the failed date, while the monthly loop
skips the failed date entirely, appending nothing. -/
theorem perDayFailureHandling :
    (∀ (pre suf : List (DayInput ℤ)) (d : ℤ) (hrv rhr : Option ℚ),
      trendsData (pre ++ ⟨d, HomeFetch.err, hrv, rhr⟩ :: suf) =
        trendsData pre ++ nullRecord d :: trendsData suf) ∧
    (∀ (pre suf : List (DayInput ℤ)) (d : ℤ) (hrv rhr : Option ℚ),
      historyData (pre ++ ⟨d, HomeFetch.err, hrv, rhr⟩ :: suf) =
        historyData pre ++ nullRecord d :: historyData suf) ∧
    (∀ (pre suf : List (DayInput ℤ)) (d : ℤ) (hrv rhr : Option ℚ),
      monthlyData (pre ++ ⟨d, HomeFetch.err, hrv, rhr⟩ :: suf) =
        monthlyData pre ++ monthlyData suf) := by
  refine ⟨?_, ?_, ?_⟩
  · intro pre suf d hrv rhr
    simp [trendsData, trendsDayRecord]
  · intro pre suf d hrv rhr
    simp [historyData, historyDayRecords]
  · intro pre suf d hrv rhr
    simp [monthlyData, monthlyDayRecords]

/-- Counterexample to C1 as stated: in the monthly loop a failed day
produces no record at all — the accumulated array is empty, not a
single all-null record. -/
theorem monthlyFailureSkipsDay :
    monthlyData [⟨(5 : ℤ), HomeFetch.err, none, none⟩] = [] ∧
    monthlyData [⟨(5 : ℤ), HomeFetch.err, none, none⟩] ≠ [nullRecord (5 : ℤ)] := by
  exact ⟨rfl, by decide⟩

/-- C3: every window average equals the arithmetic mean of the records
with a non-null value for that metric — rounded to the nearest integer
for recovery, HRV and RHR, to one decimal for strain and sleep — both in
`calcStats` and in the monthly `averages`; an empty or all-null window
yields a null average (never `NaN`, never 0). -/
theorem averages_spec :
    (∀ (δ : Type) (arr : List (DailyRecord δ)),
      (calcStats arr).avgRecovery = meanRounded (arr.filterMap (fun d => d.recoveryScore)) ∧
      (calcStats arr).avgStrain = meanRounded1 (arr.filterMap (fun d => d.strain)) ∧
      (calcStats arr).avgSleep = meanRounded1 (arr.filterMap (fun d => d.sleepHours)) ∧
      (calcStats arr).avgHrv = meanRounded (arr.filterMap (fun d => d.hrv)) ∧
      (calcStats arr).avgRhr = meanRounded (arr.filterMap (fun d => d.rhr))) ∧
    (∀ (δ : Type) (dailyData : List (DailyRecord δ)),
      (monthlyAverages dailyData).recovery =
        meanRounded (dailyData.filterMap (fun d => d.recoveryScore)) ∧
      (monthlyAverages dailyData).strain =
        meanRounded1 (dailyData.filterMap (fun d => d.strain)) ∧
      (monthlyAverages dailyData).sleepHours =
        meanRounded1 (dailyData.filterMap (fun d => d.sleepHours)) ∧
      (monthlyAverages dailyData).hrv =
        meanRounded (dailyData.filterMap (fun d => d.hrv)) ∧
      (monthlyAverages dailyData).rhr =
        meanRounded (dailyData.filterMap (fun d => d.rhr))) ∧
    (∀ (δ : Type) (arr : List (DailyRecord δ)),
      (∀ d ∈ arr, d.recoveryScore = none) → (calcStats arr).avgRecovery = none) := by
  refine ⟨?_, ?_, ?_⟩
  · intro δ arr
    exact ⟨avgIntOf_eq _ _, avgDecOf_eq _ _, avgDecOf_eq _ _, avgIntOf_eq _ _, avgIntOf_eq _ _⟩
  · intro δ dailyData
    exact ⟨avgIntOf_eq _ _, avgDecOf_eq _ _, avgDecOf_eq _ _, avgIntOf_eq _ _, avgIntOf_eq _ _⟩
  · intro δ arr h
    have h0 : arr.filterMap (fun d => d.recoveryScore) = [] :=
      List.filterMap_eq_nil_iff.mpr h
    show avgIntOf (fun d => d.recoveryScore) arr = none
    rw [avgIntOf_eq, h0]
    rfl

/-- Witness for C3's all-null case on a one-record list. -/
theorem averages_spec_witness : (calcStats [nullRecord (0 : ℤ)]).avgRecovery = none :=
  averages_spec.2.2 ℤ [nullRecord (0 : ℤ)] (by decide)

/-- C8: `daysAbove70Recovery` counts exactly the records whose recovery
score is non-null and at least 70; each monthly distribution tier counts
exactly the records whose non-null recovery score lies in its band
(green `>= 67`, yellow `34 <= _ < 67`, red `< 34`); a record with a
null recovery score is never counted. -/
theorem daysAboveThreshold_spec :
    (∀ (δ : Type) (arr : List (DailyRecord δ)),
      (calcStats arr).daysAbove70Recovery =
        countValid (fun d => d.recoveryScore) (fun v => decide ((70 : ℚ) ≤ v)) arr) ∧
    (∀ (δ : Type) (dailyData : List (DailyRecord δ)),
      (distribution dailyData).greenRecoveryDays =
        countValid (fun d => d.recoveryScore) (fun v => decide ((67 : ℚ) ≤ v)) dailyData ∧
      (distribution dailyData).yellowRecoveryDays =
        countValid (fun d => d.recoveryScore)
          (fun v => decide ((34 : ℚ) ≤ v) && decide (v < 67)) dailyData ∧
      (distribution dailyData).redRecoveryDays =
        countValid (fun d => d.recoveryScore) (fun v => decide (v < 34)) dailyData) ∧
    (∀ (δ : Type) (arr : List (DailyRecord δ)) (d : DailyRecord δ),
      d.recoveryScore = none →
        (calcStats (d :: arr)).daysAbove70Recovery = (calcStats arr).daysAbove70Recovery) := by
  refine ⟨?_, ?_, ?_⟩
  · intro δ arr
    induction arr with
    | nil => rfl
    | cons hd tl ih =>
      cases h : hd.recoveryScore with
      | none => simpa [calcStats, countValid, List.filter_cons, h] using ih
      | some v =>
        by_cases h1 : (70 : ℚ) ≤ v <;>
          simpa [calcStats, countValid, List.filter_cons, h, h1] using ih
  · intro δ dailyData
    refine ⟨?_, ?_, ?_⟩
    · induction dailyData with
      | nil => rfl
      | cons hd tl ih =>
        cases h : hd.recoveryScore with
        | none => simpa [distribution, countValid, List.filter_cons, h] using ih
        | some v =>
          by_cases h1 : (67 : ℚ) ≤ v <;>
            simpa [distribution, countValid, List.filter_cons, h, h1] using ih
    · induction dailyData with
      | nil => rfl
      | cons hd tl ih =>
        cases h : hd.recoveryScore with
        | none => simpa [distribution, countValid, List.filter_cons, h] using ih
        | some v =>
          by_cases h1 : (34 : ℚ) ≤ v <;> by_cases h2 : v < 67 <;>
            simpa [distribution, countValid, List.filter_cons, h, h1, h2] using ih
    · induction dailyData with
      | nil => rfl
      | cons hd tl ih =>
        cases h : hd.recoveryScore with
        | none => simpa [distribution, countValid, List.filter_cons, h] using ih
        | some v =>
          by_cases h1 : v < 34 <;>
            simpa [distribution, countValid, List.filter_cons, h, h1] using ih
  · intro δ arr d h
    simp [calcStats, List.filter_cons, h]

/-- Witness for C8's null-is-never-counted case. -/
theorem daysAboveThreshold_spec_witness :
    (calcStats (nullRecord (0 : ℤ) :: [])).daysAbove70Recovery =
      (calcStats ([] : List (DailyRecord ℤ))).daysAbove70Recovery :=
  daysAboveThreshold_spec.2.2 ℤ [] (nullRecord (0 : ℤ)) rfl

/-- C10: the monthly recovery distribution partitions the records with a
non-null recovery score — the green, yellow and red counts always sum to
the number of records with a non-null recovery score. -/
theorem distribution_partition :
    ∀ (δ : Type) (dailyData : List (DailyRecord δ)),
      (distribution dailyData).greenRecoveryDays +
        (distribution dailyData).yellowRecoveryDays +
        (distribution dailyData).redRecoveryDays =
      (dailyData.filter (fun d => d.recoveryScore.isSome)).length := by
  intro δ dailyData
  induction dailyData with
  | nil => rfl
  | cons hd tl ih =>
    cases h : hd.recoveryScore with
    | none => simpa [distribution, List.filter_cons, h] using ih
    | some v =>
      by_cases h1 : (67 : ℚ) ≤ v
      · have h2 : ¬(v < 67) := not_lt.mpr h1
        have h3 : ¬(v < 34) := not_lt.mpr (le_trans (by norm_num) h1)
        simp [distribution, List.filter_cons, h, h1, h2, h3] at ih ⊢
        omega
      · by_cases h4 : (34 : ℚ) ≤ v
        · have h2 : v < 67 := not_le.mp h1
          have h3 : ¬(v < 34) := not_lt.mpr h4
          simp [distribution, List.filter_cons, h, h1, h2, h3, h4] at ih ⊢
          omega
        · have h3 : v < 34 := not_le.mp h4
          simp [distribution, List.filter_cons, h, h1, h3, h4] at ih ⊢
          omega

/-- C6: the trends loop visits dates in ascending chronological order,
so the first 7 of the 14 accumulated records (`data.slice(0, 7)`) are
the 7 oldest days (`lastWeek`) and the last 7 (`data.slice(7, 14)`) the
7 most recent (`thisWeek`); `changes.recoveryChange` is
`calcChange(thisWeek.avgRecovery, lastWeek.avgRecovery)`; on the
concrete series with last-week recoveries `[60,62,58,65,61,59,63]` and
this-week recoveries `[70,72,68,75,71,69,73]` the recovery change is 16. -/
theorem weekOverWeek_spec :
    (∀ (δ : Type) (data : List (DailyRecord δ)),
      (weekOverWeek data).lastWeek = calcStats (data.take 7) ∧
      (weekOverWeek data).thisWeek = calcStats ((data.drop 7).take 7) ∧
      (weekOverWeek data).changes.recoveryChange =
        calcChange ((weekOverWeek data).thisWeek.avgRecovery)
          ((weekOverWeek data).lastWeek.avgRecovery)) ∧
    (∀ endDay : ℤ, ∀ d1 ∈ (trendsDates endDay).take 7,
      ∀ d2 ∈ (trendsDates endDay).drop 7, d1 < d2) ∧
    (weekOverWeek trendsExampleData).changes.recoveryChange = some 16 := by
  refine ⟨?_, ?_, ?_⟩
  · intro δ data
    exact ⟨rfl, rfl, rfl⟩
  · intro e d1 h1 d2 h2
    have hr : List.range 14 = [0, 1, 2, 3, 4, 5, 6, 7, 8, 9, 10, 11, 12, 13] := rfl
    have ht : trendsDates e =
        [e - 13, e - 12, e - 11, e - 10, e - 9, e - 8, e - 7, e - 6, e - 5, e - 4,
         e - 3, e - 2, e - 1, e] := by
      rw [trendsDates, hr]
      norm_num
      refine ⟨by ring, by ring, by ring, by ring, by ring, by ring, by ring, by ring,
        by ring, by ring, by ring, by ring⟩
    rw [ht] at h1 h2
    simp only [List.take, List.drop, List.mem_cons, List.not_mem_nil, or_false] at h1 h2
    rcases h1 with h1 | h1 | h1 | h1 | h1 | h1 | h1 <;>
      rcases h2 with h2 | h2 | h2 | h2 | h2 | h2 | h2 <;> omega
  · have hthis : (calcStats ((trendsExampleData.drop 7).take 7)).avgRecovery = some 71 := by
      have hfm : ((trendsExampleData.drop 7).take 7).filterMap (fun d => d.recoveryScore) =
          [70, 72, 68, 75, 71, 69, 73] := rfl
      show avgIntOf (fun d => d.recoveryScore) ((trendsExampleData.drop 7).take 7) = some 71
      rw [avgIntOf_eq, hfm]
      norm_num [meanRounded]
      simp
    have hlast : (calcStats (trendsExampleData.take 7)).avgRecovery = some 61 := by
      have hfm : (trendsExampleData.take 7).filterMap (fun d => d.recoveryScore) =
          [60, 62, 58, 65, 61, 59, 63] := rfl
      show avgIntOf (fun d => d.recoveryScore) (trendsExampleData.take 7) = some 61
      rw [avgIntOf_eq, hfm]
      norm_num [meanRounded]
      simp
    have hw : (weekOverWeek trendsExampleData).changes.recoveryChange =
        calcChange ((calcStats ((trendsExampleData.drop 7).take 7)).avgRecovery)
          ((calcStats (trendsExampleData.take 7)).avgRecovery) := rfl
    rw [hw, hthis, hlast]
    norm_num [calcChange, jsRound]

/-- Witness for C6's chronology: on `endDay = 0`, day `-13` sits in the
first week, day `-6` in the second, and `-13 < -6`. -/
theorem weekOverWeek_spec_witness :
    ((-13 : ℤ) ∈ (trendsDates 0).take 7) ∧ ((-6 : ℤ) ∈ (trendsDates 0).drop 7) ∧
      (-13 : ℤ) < -6 :=
  ⟨by decide, by decide, weekOverWeek_spec.2.1 0 (-13) (by decide) (-6) (by decide)⟩

theorem jsReduceMax_foldl {α : Type} (f : α → ℚ) :
    ∀ (l : List α) (b : α),
      l.foldl
        (fun best d =>
          match best with
          | none => some d
          | some b => if f d > f b then some d else some b)
        (some b) = some (bestFrom f b l) := by
  intro l
  induction l with
  | nil => intro b; rfl
  | cons x xs ih =>
    intro b
    rw [List.foldl_cons]
    show xs.foldl _ (if f x > f b then some x else some b) = some (bestFrom f b (x :: xs))
    by_cases h : f x > f b
    · rw [if_pos h, ih x]
      simp [bestFrom, h]
    · rw [if_neg h, ih b]
      simp [bestFrom, h]

theorem jsReduceMax_cons {α : Type} (f : α → ℚ) (b : α) (xs : List α) :
    jsReduceMax f (b :: xs) = some (bestFrom f b xs) := by
  show xs.foldl _ (some b) = _
  exact jsReduceMax_foldl f xs b

theorem bestFrom_ge {α : Type} (f : α → ℚ) :
    ∀ (l : List α) (b : α),
      f b ≤ f (bestFrom f b l) ∧ ∀ y ∈ l, f y ≤ f (bestFrom f b l) := by
  intro l
  induction l with
  | nil =>
    intro b
    exact ⟨le_refl _, by simp⟩
  | cons x xs ih =>
    intro b
    by_cases h : f x > f b
    · have hx := ih x
      rw [show bestFrom f b (x :: xs) = bestFrom f x xs from by simp [bestFrom, h]]
      refine ⟨le_trans (le_of_lt h) hx.1, ?_⟩
      intro y hy
      rcases List.mem_cons.mp hy with rfl | hy'
      · exact hx.1
      · exact hx.2 y hy'
    · have hb := ih b
      rw [show bestFrom f b (x :: xs) = bestFrom f b xs from by simp [bestFrom, h]]
      refine ⟨hb.1, ?_⟩
      intro y hy
      rcases List.mem_cons.mp hy with rfl | hy'
      · exact le_trans (not_lt.mp h) hb.1
      · exact hb.2 y hy'

theorem bestFrom_first {α : Type} (f : α → ℚ) :
    ∀ (l : List α) (b : α),
      ∃ pre suf, b :: l = pre ++ bestFrom f b l :: suf ∧
        (∀ y ∈ pre, f y < f (bestFrom f b l)) ∧
        (∀ y ∈ suf, f y ≤ f (bestFrom f b l)) := by
  intro l
  induction l with
  | nil =>
    intro b
    exact ⟨[], [], rfl, by simp, by simp⟩
  | cons x xs ih =>
    intro b
    by_cases h : f x > f b
    · obtain ⟨pre, suf, heq, hpre, hsuf⟩ := ih x
      rw [show bestFrom f b (x :: xs) = bestFrom f x xs from by simp [bestFrom, h]]
      refine ⟨b :: pre, suf, ?_, ?_, hsuf⟩
      · rw [List.cons_append, ← heq]
      · intro y hy
        rcases List.mem_cons.mp hy with rfl | hy'
        · exact lt_of_lt_of_le h (bestFrom_ge f xs x).1
        · exact hpre y hy'
    · obtain ⟨pre, suf, heq, hpre, hsuf⟩ := ih b
      rw [show bestFrom f b (x :: xs) = bestFrom f b xs from by simp [bestFrom, h]]
      cases pre with
      | nil =>
        simp only [List.nil_append] at heq
        injection heq with h1 h2
        refine ⟨[], x :: xs, ?_, by simp, ?_⟩
        · rw [List.nil_append, ← h1]
        · intro y hy
          rcases List.mem_cons.mp hy with rfl | hy'
          · rw [← h1]
            exact not_lt.mp h
          · exact hsuf y (h2 ▸ hy')
      | cons p ps =>
        simp only [List.cons_append] at heq
        injection heq with h1 h2
        have hbr : f b < f (bestFrom f b xs) := by
          apply hpre
          rw [h1]
          exact List.mem_cons_self p ps
        refine ⟨b :: x :: ps, suf, ?_, ?_, hsuf⟩
        · rw [List.cons_append, List.cons_append, ← h2]
        · intro y hy
          rcases List.mem_cons.mp hy with rfl | hy'
          · exact hbr
          · rcases List.mem_cons.mp hy' with rfl | hy''
            · exact lt_of_le_of_lt (not_lt.mp h) hbr
            · exact hpre y (List.mem_cons_of_mem p hy'')

theorem jsReduceMax_isFirstMax {α : Type} (f : α → ℚ) (l : List α) (x : α)
    (h : jsReduceMax f l = some x) : IsFirstMax f l x := by
  cases l with
  | nil => simp [jsReduceMax] at h
  | cons b xs =>
    rw [jsReduceMax_cons] at h
    have hx : bestFrom f b xs = x := Option.some.inj h
    rw [← hx]
    exact bestFrom_first f xs b

theorem jsReduceMin_eq_max_neg {α : Type} (f : α → ℚ) (l : List α) :
    jsReduceMin f l = jsReduceMax (fun a => -(f a)) l := by
  unfold jsReduceMin jsReduceMax
  congr 1
  funext best d
  cases best with
  | none => rfl
  | some b => simp only [gt_iff_lt, neg_lt_neg_iff]

theorem jsReduceMin_isFirstMin {α : Type} (f : α → ℚ) (l : List α) (x : α)
    (h : jsReduceMin f l = some x) : IsFirstMin f l x := by
  rw [jsReduceMin_eq_max_neg] at h
  obtain ⟨pre, suf, heq, hpre, hsuf⟩ := jsReduceMax_isFirstMax (fun a => -(f a)) l x h
  refine ⟨pre, suf, heq, ?_, ?_⟩
  · intro y hy
    have := hpre y hy
    simpa using this
  · intro y hy
    have := hsuf y hy
    simpa using this

/-- C7: each monthly highlight picks, among the records with a non-null
value for its metric, the first occurrence (in chronological, i.e.
accumulation, order) of the maximum (best recovery, highest strain, best
sleep) or of the minimum (worst recovery), ties going to the earlier
record; on recoveries `{"2024-01-01": 80, "2024-01-02": 45}` the best
day is `("2024-01-01", 80)` and the worst `("2024-01-02", 45)`. -/
theorem highlights_spec :
    (∀ (δ : Type) (dailyData : List (DailyRecord δ)) (p : δ × ℚ),
      (highlights dailyData).bestRecoveryDay = some p →
        ∃ r, IsFirstMax (fun d => d.recoveryScore.getD 0)
            (dailyData.filter (fun d => d.recoveryScore.isSome)) r ∧
          p = (r.date, r.recoveryScore.getD 0)) ∧
    (∀ (δ : Type) (dailyData : List (DailyRecord δ)) (p : δ × ℚ),
      (highlights dailyData).worstRecoveryDay = some p →
        ∃ r, IsFirstMin (fun d => d.recoveryScore.getD 0)
            (dailyData.filter (fun d => d.recoveryScore.isSome)) r ∧
          p = (r.date, r.recoveryScore.getD 0)) ∧
    (∀ (δ : Type) (dailyData : List (DailyRecord δ)) (p : δ × ℚ),
      (highlights dailyData).highestStrainDay = some p →
        ∃ r, IsFirstMax (fun d => d.strain.getD 0)
            (dailyData.filter (fun d => d.strain.isSome)) r ∧
          p = (r.date, r.strain.getD 0)) ∧
    (∀ (δ : Type) (dailyData : List (DailyRecord δ)) (p : δ × ℚ),
      (highlights dailyData).bestSleepDay = some p →
        ∃ r, IsFirstMax (fun d => d.sleepHours.getD 0)
            (dailyData.filter (fun d => d.sleepHours.isSome)) r ∧
          p = (r.date, jsRound1 (r.sleepHours.getD 0))) ∧
    ((highlights monthlyExampleData).bestRecoveryDay = some ("2024-01-01", 80) ∧
      (highlights monthlyExampleData).worstRecoveryDay = some ("2024-01-02", 45)) := by
  refine ⟨?_, ?_, ?_, ?_, ?_, ?_⟩
  · intro δ dailyData p h
    have h' : (jsReduceMax (fun d => d.recoveryScore.getD 0)
        (dailyData.filter (fun d => d.recoveryScore.isSome))).map
          (fun d => (d.date, d.recoveryScore.getD 0)) = some p := h
    rw [Option.map_eq_some'] at h'
    obtain ⟨r, hr, hg⟩ := h'
    exact ⟨r, jsReduceMax_isFirstMax _ _ _ hr, hg.symm⟩
  · intro δ dailyData p h
    have h' : (jsReduceMin (fun d => d.recoveryScore.getD 0)
        (dailyData.filter (fun d => d.recoveryScore.isSome))).map
          (fun d => (d.date, d.recoveryScore.getD 0)) = some p := h
    rw [Option.map_eq_some'] at h'
    obtain ⟨r, hr, hg⟩ := h'
    exact ⟨r, jsReduceMin_isFirstMin _ _ _ hr, hg.symm⟩
  · intro δ dailyData p h
    have h' : (jsReduceMax (fun d => d.strain.getD 0)
        (dailyData.filter (fun d => d.strain.isSome))).map
          (fun d => (d.date, d.strain.getD 0)) = some p := h
    rw [Option.map_eq_some'] at h'
    obtain ⟨r, hr, hg⟩ := h'
    exact ⟨r, jsReduceMax_isFirstMax _ _ _ hr, hg.symm⟩
  · intro δ dailyData p h
    have h' : (jsReduceMax (fun d => d.sleepHours.getD 0)
        (dailyData.filter (fun d => d.sleepHours.isSome))).map
          (fun d => (d.date, jsRound1 (d.sleepHours.getD 0))) = some p := h
    rw [Option.map_eq_some'] at h'
    obtain ⟨r, hr, hg⟩ := h'
    exact ⟨r, jsReduceMax_isFirstMax _ _ _ hr, hg.symm⟩
  · rfl
  · rfl

/-- Witness for C7 at the concrete two-day example: the best-recovery
pick is a first-occurrence maximum of the valid records. -/
theorem highlights_spec_witness :
    ∃ r, IsFirstMax (fun d => d.recoveryScore.getD 0)
        (monthlyExampleData.filter (fun d => d.recoveryScore.isSome)) r ∧
      (("2024-01-01", (80 : ℚ)) : String × ℚ) = (r.date, r.recoveryScore.getD 0) :=
  highlights_spec.1 String monthlyExampleData ("2024-01-01", 80) (by decide)

theorem findSectionAux_eq (p : WidgetItem → Bool) (secs : List WidgetSection)
    (h : ∀ s ∈ secs, s.items.isSome = true) :
    findSectionAux p secs = .ok (plainSectionAux p secs) := by
  induction secs with
  | nil => rfl
  | cons s rest ih =>
    obtain ⟨its, hits⟩ := Option.isSome_iff_exists.mp (h s (List.mem_cons_self s rest))
    have ih' := ih (fun a ha => h a (List.mem_cons_of_mem s ha))
    simp only [findSectionAux, plainSectionAux, hits, Option.getD_some]
    cases hb : its.any p with
    | true => simp [hb]
    | false => simp [hb, ih']

theorem plainSectionAux_mem (p : WidgetItem → Bool) (secs : List WidgetSection)
    (s : WidgetSection) (h : plainSectionAux p secs = some s) : s ∈ secs := by
  induction secs with
  | nil => cases h
  | cons a rest ih =>
    by_cases hc : ((a.items.getD []).any p) = true
    · rw [plainSectionAux, if_pos hc] at h
      rw [← Option.some.inj h]
      exact List.mem_cons_self a rest
    · rw [plainSectionAux, if_neg hc] at h
      exact List.mem_cons_of_mem a (ih h)

theorem allItemsPresent_sections (d : DeepDivePayload) (h : allItemsPresent d = true) :
    ∃ secs, d.sections = some secs ∧ ∀ s ∈ secs, s.items.isSome = true := by
  unfold allItemsPresent at h
  cases hs : d.sections with
  | none => rw [hs] at h; cases h
  | some secs =>
    rw [hs] at h
    exact ⟨secs, rfl, by simpa [List.all_eq_true] using h⟩

theorem tsFindSection_eq (d : DeepDivePayload) (t : String)
    (h : allItemsPresent d = true) :
    tsFindSection d.sections (isType t) = .ok (plainSection d t) := by
  obtain ⟨secs, hs, hall⟩ := allItemsPresent_sections d h
  rw [tsFindSection.eq_def, plainSection.eq_def, hs]
  exact findSectionAux_eq _ _ hall

theorem plainSection_items (d : DeepDivePayload) (t : String)
    (h : allItemsPresent d = true) (s : WidgetSection)
    (hps : plainSection d t = some s) : s.items.isSome = true := by
  obtain ⟨secs, hs, hall⟩ := allItemsPresent_sections d h
  rw [plainSection.eq_def, hs] at hps
  exact hall s (plainSectionAux_mem _ _ _ hps)

theorem tsItemContent_eq (d : DeepDivePayload) (t : String)
    (h : allItemsPresent d = true) :
    tsItemContent (plainSection d t) (isType t) = .ok (plainTile d t) := by
  cases hps : plainSection d t with
  | none => simp [tsItemContent, plainTile, hps]
  | some s =>
    obtain ⟨its, hits⟩ :=
      Option.isSome_iff_exists.mp (plainSection_items d t h s hps)
    simp only [tsItemContent, plainTile, hps, hits, Option.getD_some]
    cases hf : its.find? (isType t) <;> simp [hf]

theorem tsMetricsMap_ok (tile : Option WidgetContent)
    (h : (match tile with
          | none => true
          | some c => c.metrics.isSome) = true) :
    ∃ cs, tsMetricsMap tile = .ok cs := by
  cases tile with
  | none => exact ⟨[], rfl⟩
  | some c =>
    obtain ⟨ms, hms⟩ := Option.isSome_iff_exists.mp h
    exact ⟨ms.map contributorOf, by simp [tsMetricsMap, hms]⟩

theorem filterSectionsAux_eq (p : WidgetItem → Bool) (secs : List WidgetSection)
    (h : ∀ s ∈ secs, s.items.isSome = true) :
    filterSectionsAux p secs = .ok (secs.filter (fun s => (s.items.getD []).any p)) := by
  induction secs with
  | nil => rfl
  | cons s rest ih =>
    obtain ⟨its, hits⟩ := Option.isSome_iff_exists.mp (h s (List.mem_cons_self s rest))
    have ih' := ih (fun a ha => h a (List.mem_cons_of_mem s ha))
    simp only [filterSectionsAux, List.filter_cons, hits, Option.getD_some, ih']

theorem itemsActivities_ok (its : List WidgetItem)
    (h : ∀ i ∈ its, isType "ACTIVITY" i = true → i.content.isSome = true) :
    ∃ as_, itemsActivities its = .ok as_ := by
  induction its with
  | nil => exact ⟨[], rfl⟩
  | cons i rest ih =>
    obtain ⟨rs, hrs⟩ := ih (fun a ha hty => h a (List.mem_cons_of_mem i ha) hty)
    by_cases ht : isType "ACTIVITY" i = true
    · obtain ⟨c, hc⟩ :=
        Option.isSome_iff_exists.mp (h i (List.mem_cons_self i rest) ht)
      exact ⟨{ title := c.title, strainScore := c.score_display,
               startTime := c.start_time_text, endTime := c.end_time_text,
               type := c.type, status := c.status } :: rs,
             by simp [itemsActivities, ht, hc, hrs]⟩
    · exact ⟨rs, by simp [itemsActivities, ht, hrs]⟩

theorem activitiesFromSections_ok (secs : List WidgetSection)
    (hitems : ∀ s ∈ secs, s.items.isSome = true)
    (hact : ∀ s ∈ secs, ∀ i ∈ s.items.getD [],
      isType "ACTIVITY" i = true → i.content.isSome = true) :
    ∃ as_, activitiesFromSections secs = .ok as_ := by
  induction secs with
  | nil => exact ⟨[], rfl⟩
  | cons s rest ih =>
    obtain ⟨its, hits⟩ :=
      Option.isSome_iff_exists.mp (hitems s (List.mem_cons_self s rest))
    obtain ⟨here, hhere⟩ := itemsActivities_ok its
      (fun i hi ht => hact s (List.mem_cons_self s rest) i (by rw [hits]; simpa using hi) ht)
    obtain ⟨there, hthere⟩ := ih
      (fun a ha => hitems a (List.mem_cons_of_mem s ha))
      (fun a ha => hact a (List.mem_cons_of_mem s ha))
    exact ⟨here ++ there, by simp [activitiesFromSections, hits, hhere, hthere]⟩

theorem tsActivities_ok (d : DeepDivePayload) (h1 : allItemsPresent d = true)
    (h3 : activityContentsOk d = true) :
    ∃ as_, tsActivities d.sections = .ok as_ := by
  obtain ⟨secs, hs, hall⟩ := allItemsPresent_sections d h1
  have hactall : ∀ s ∈ secs, ∀ i ∈ s.items.getD [],
      isType "ACTIVITY" i = true → i.content.isSome = true := by
    unfold activityContentsOk at h3
    rw [hs] at h3
    simp only [List.all_eq_true] at h3
    intro s hs' i hi ht
    have hx := h3 s hs' i hi
    simp [ht] at hx
    exact hx
  have hfil := filterSectionsAux_eq (isType "ACTIVITY") secs hall
  obtain ⟨as_, has⟩ := activitiesFromSections_ok
    (secs.filter (fun s => (s.items.getD []).any (isType "ACTIVITY")))
    (fun a ha => hall a (List.mem_filter.mp ha).1)
    (fun a ha => hactall a (List.mem_filter.mp ha).1)
  exact ⟨as_, by simp [tsActivities, hs, hfil, has]⟩

/-- C5 (amended): the trends/monthly contributors-tile extraction is
fully optional-chained and yields `none` (not an exception) whenever
`sections` or any section's `items` is absent; the recovery and strain
extractions succeed — with missing gauges and tiles becoming defaults —
whenever `sections` is present, every section has an `items` array, a
found contributors tile has `metrics` (and, for strain, every
`ACTIVITY` item has `content`); outside those conditions their
unguarded accesses throw (see the counterexample), the exception being
caught only by the tool's outer handler. -/
theorem extraction_absence_spec :
    (∀ d : DeepDivePayload, allItemsPresent d = true → tileMetricsOk d = true →
      ∃ out, recoveryExtract d = Except.ok out) ∧
    (∀ d : DeepDivePayload, allItemsPresent d = true → tileMetricsOk d = true →
      activityContentsOk d = true → ∃ out, strainExtract d = Except.ok out) ∧
    trendsContributorsTile ⟨none⟩ = none ∧
    (∀ secs : List WidgetSection, (∀ s ∈ secs, s.items = none) →
      trendsContributorsTile ⟨some secs⟩ = none) := by
  refine ⟨?_, ?_, ?_, ?_⟩
  · intro d h1 h2
    have e1 := tsFindSection_eq d "SCORE_GAUGE" h1
    have e2 := tsItemContent_eq d "SCORE_GAUGE" h1
    have e3 := tsFindSection_eq d "CONTRIBUTORS_TILE" h1
    have e4 := tsItemContent_eq d "CONTRIBUTORS_TILE" h1
    have h2' : (match plainTile d "CONTRIBUTORS_TILE" with
        | none => true
        | some c => c.metrics.isSome) = true := h2
    obtain ⟨cs, e5⟩ := tsMetricsMap_ok _ h2'
    refine ⟨{ score := jsOrString ((plainTile d "SCORE_GAUGE").bind (fun g => g.score_display)) "N/A",
              percentage := ((plainTile d "SCORE_GAUGE").bind (fun g => g.gauge_fill_percentage)).getD 0,
              style := jsOrString ((plainTile d "SCORE_GAUGE").bind (fun g => g.progress_fill_style)) "UNKNOWN",
              contributors := cs,
              coachInsight := coachVowOf (plainTile d "CONTRIBUTORS_TILE") }, ?_⟩
    simp only [recoveryExtract, e1, e2, e3, e4, e5]
  · intro d h1 h2 h3
    have e1 := tsFindSection_eq d "SCORE_GAUGE" h1
    have e2 := tsItemContent_eq d "SCORE_GAUGE" h1
    have e3 := tsFindSection_eq d "CONTRIBUTORS_TILE" h1
    have e4 := tsItemContent_eq d "CONTRIBUTORS_TILE" h1
    have h2' : (match plainTile d "CONTRIBUTORS_TILE" with
        | none => true
        | some c => c.metrics.isSome) = true := h2
    obtain ⟨cs, e5⟩ := tsMetricsMap_ok _ h2'
    obtain ⟨as_, e6⟩ := tsActivities_ok d h1 h3
    refine ⟨{ score := jsOrString ((plainTile d "SCORE_GAUGE").bind (fun g => g.score_display)) "N/A",
              percentage := ((plainTile d "SCORE_GAUGE").bind (fun g => g.gauge_fill_percentage)).getD 0,
              target := jsOrNullQ ((plainTile d "SCORE_GAUGE").bind (fun g => g.score_target)),
              lowerOptimal := jsOrNullQ ((plainTile d "SCORE_GAUGE").bind (fun g => g.lower_optimal_percentage)),
              higherOptimal := jsOrNullQ ((plainTile d "SCORE_GAUGE").bind (fun g => g.higher_optimal_percentage)),
              contributors := cs,
              activities := as_,
              coachInsight := coachVowOf (plainTile d "CONTRIBUTORS_TILE") }, ?_⟩
    simp only [strainExtract, e1, e2, e3, e4, e5, e6]
  · rfl
  · intro secs h
    rw [trendsContributorsTile.eq_def]
    have hf : secs.find?
        (fun s => (s.items.getD []).any (isType "CONTRIBUTORS_TILE")) = none := by
      rw [List.find?_eq_none]
      intro s hs
      simp [h s hs]
    simp [hf]

/-- Witness for C5's success conditions at concrete payloads: an empty
sections list extracts successfully in both deep-dive tools, and a
sections list whose only section lacks `items` yields `none` from the
guarded trends navigation. -/
theorem extraction_absence_spec_witness :
    (∃ out, recoveryExtract ⟨some []⟩ = Except.ok out) ∧
    (∃ out, strainExtract ⟨some []⟩ = Except.ok out) ∧
    trendsContributorsTile ⟨some [⟨none⟩]⟩ = none :=
  ⟨extraction_absence_spec.1 ⟨some []⟩ rfl rfl,
   extraction_absence_spec.2.1 ⟨some []⟩ rfl rfl rfl,
   extraction_absence_spec.2.2.2 [⟨none⟩] (by decide)⟩

/-- Counterexample to C5 as stated: a payload with no `sections` node
makes the recovery and strain extraction steps throw a `TypeError`
(`data.sections.find` / `data.sections.filter` on `undefined`) instead
of yielding null. -/
theorem extraction_raises_on_missing_sections :
    recoveryExtract ⟨none⟩ = Except.error () ∧
    strainExtract ⟨none⟩ = Except.error () :=
  ⟨rfl, rfl⟩

end Whoop
